import Mathlib

/-!
Shallow embedding of the sokudo physics engine core (`crates/sokudo-core`).

Scalar arithmetic of the source (`f32`) is modelled by exact rationals `ℚ`.
Where the source's behaviour depends on IEEE non-finite values (the reciprocal
of zero being infinite), the embedding tests the original operand for zero,
which is the exact condition under which the `f32` computation on finite
inputs produces a non-finite result.  The `f32` literal `0.1` in `World::step`
is written `1/10`.  `u32`/`usize` values are modelled as `ℕ`; the embedded
code performs no arithmetic on them, so wrap-around never arises.
-/

namespace Sokudo

/-- glam `Vec3`: a 3-component vector, components modelled as `ℚ`. -/
@[ext]
structure Vec3 where
  x : ℚ
  y : ℚ
  z : ℚ
deriving DecidableEq

/-- glam `Vec3::ZERO`. -/
def Vec3.zero : Vec3 := ⟨0, 0, 0⟩

/-- Componentwise vector addition. -/
def Vec3.add (a b : Vec3) : Vec3 := ⟨a.x + b.x, a.y + b.y, a.z + b.z⟩

/-- Vector negation (the unary `-` of glam). -/
def Vec3.neg (a : Vec3) : Vec3 := ⟨-a.x, -a.y, -a.z⟩

/-- Scalar multiple of a vector. -/
def Vec3.smul (k : ℚ) (a : Vec3) : Vec3 := ⟨k * a.x, k * a.y, k * a.z⟩

/-- glam `Vec3::dot`. -/
def Vec3.dot (a b : Vec3) : ℚ := a.x * b.x + a.y * b.y + a.z * b.z

/-- glam `Vec3::cross`. -/
def Vec3.cross (a b : Vec3) : Vec3 :=
  ⟨a.y * b.z - a.z * b.y, a.z * b.x - a.x * b.z, a.x * b.y - a.y * b.x⟩

/-- glam `Vec3::recip`: componentwise reciprocal.  In `ℚ` the reciprocal of
`0` is `0`; the source's `f32` reciprocal of `0` is infinite, and every place
the embedded code cares about that non-finiteness tests the operand for zero
explicitly (see `InertiaTensor.new`). -/
def Vec3.recip (v : Vec3) : Vec3 := ⟨v.x⁻¹, v.y⁻¹, v.z⁻¹⟩

/-- glam `UVec3` (`u32` components, modelled as `ℕ`; only constructed and
compared for equality by the embedded code). -/
@[ext]
structure UVec3 where
  x : ℕ
  y : ℕ
  z : ℕ
deriving DecidableEq

/-- glam `UVec3::ZERO`. -/
def UVec3.zero : UVec3 := ⟨0, 0, 0⟩

/-- glam `UVec3::ONE`. -/
def UVec3.one : UVec3 := ⟨1, 1, 1⟩

/-- glam `Quat`, components modelled as `ℚ`. -/
@[ext]
structure Quat where
  x : ℚ
  y : ℚ
  z : ℚ
  w : ℚ
deriving DecidableEq

/-- glam `Quat::IDENTITY`. -/
def Quat.identity : Quat := ⟨0, 0, 0, 1⟩

/-- glam `Mat3`: column-major 3×3 matrix with columns `x_axis`, `y_axis`,
`z_axis`, exactly as glam stores it. -/
@[ext]
structure Mat3 where
  x_axis : Vec3
  y_axis : Vec3
  z_axis : Vec3
deriving DecidableEq

/-- glam `Mat3::ZERO`. -/
def Mat3.zero : Mat3 := ⟨Vec3.zero, Vec3.zero, Vec3.zero⟩

/-- glam `Mat3::IDENTITY`. -/
def Mat3.identity : Mat3 := ⟨⟨1, 0, 0⟩, ⟨0, 1, 0⟩, ⟨0, 0, 1⟩⟩

/-- glam `Mat3::from_diagonal`. -/
def Mat3.from_diagonal (d : Vec3) : Mat3 := ⟨⟨d.x, 0, 0⟩, ⟨0, d.y, 0⟩, ⟨0, 0, d.z⟩⟩

/-- glam `Mat3::mul_vec3` (`Mat3 * Vec3`): linear combination of the columns. -/
def Mat3.mulVec (m : Mat3) (v : Vec3) : Vec3 :=
  (Vec3.smul v.x m.x_axis).add ((Vec3.smul v.y m.y_axis).add (Vec3.smul v.z m.z_axis))

/-- glam `Mat3::mul_mat3` (`Mat3 * Mat3`). -/
def Mat3.mul (a b : Mat3) : Mat3 := ⟨a.mulVec b.x_axis, a.mulVec b.y_axis, a.mulVec b.z_axis⟩

/-- glam `Mat3::transpose`. -/
def Mat3.transpose (m : Mat3) : Mat3 :=
  ⟨⟨m.x_axis.x, m.y_axis.x, m.z_axis.x⟩,
   ⟨m.x_axis.y, m.y_axis.y, m.z_axis.y⟩,
   ⟨m.x_axis.z, m.y_axis.z, m.z_axis.z⟩⟩

/-- glam `Mat3::determinant`: `z_axis · (x_axis × y_axis)`, as computed inside
`Mat3::inverse`. -/
def Mat3.det (m : Mat3) : ℚ := m.z_axis.dot (m.x_axis.cross m.y_axis)

/-- glam `Mat3::inverse`: the adjugate-transpose construction of the source,
scaling the three cofactor columns by the reciprocal of the determinant and
transposing.  (For a singular matrix the `f32` source produces non-finite
entries; in `ℚ` the reciprocal of `0` is `0`.  The theorems below only use
`inverse` under a `det ≠ 0` hypothesis.) -/
def Mat3.inverse (m : Mat3) : Mat3 :=
  let tmp0 := m.y_axis.cross m.z_axis
  let tmp1 := m.z_axis.cross m.x_axis
  let tmp2 := m.x_axis.cross m.y_axis
  let det := m.z_axis.dot tmp2
  let inv_det := det⁻¹
  Mat3.transpose ⟨Vec3.smul inv_det tmp0, Vec3.smul inv_det tmp1, Vec3.smul inv_det tmp2⟩

/-- glam `Mat3::from_quat`, following the source's expansion term by term. -/
def Mat3.from_quat (rotation : Quat) : Mat3 :=
  let x2 := rotation.x + rotation.x
  let y2 := rotation.y + rotation.y
  let z2 := rotation.z + rotation.z
  let xx := rotation.x * x2
  let xy := rotation.x * y2
  let xz := rotation.x * z2
  let yy := rotation.y * y2
  let yz := rotation.y * z2
  let zz := rotation.z * z2
  let wx := rotation.w * x2
  let wy := rotation.w * y2
  let wz := rotation.w * z2
  ⟨⟨1 - (yy + zz), xy + wz, xz - wy⟩,
   ⟨xy - wz, 1 - (xx + zz), yz + wx⟩,
   ⟨xz + wy, yz - wx, 1 - (xx + yy)⟩⟩

/-- `InertiaTensor` from `rigid_body.rs`: stores only the inverse tensor. -/
structure InertiaTensor where
  inverse : Mat3
deriving DecidableEq

/-- `InertiaTensor::INFINITY`: the all-zero inverse. -/
def InertiaTensor.INFINITY : InertiaTensor := ⟨Mat3.zero⟩

/-- `InertiaTensor::from_inverse_tensor`. -/
def InertiaTensor.from_inverse_tensor (inverse_tensor : Mat3) : InertiaTensor :=
  ⟨inverse_tensor⟩

/-- `InertiaTensor::from_tensor`. -/
def InertiaTensor.from_tensor (tensor : Mat3) : InertiaTensor := ⟨tensor.inverse⟩

/-- `InertiaTensor::new`: the source computes `rcp = principal_moments.recip()`
and stores `Mat3::from_diagonal(rcp)` if `rcp.is_finite()` and the zero matrix
otherwise.  On finite moments, the `f32` vector `rcp` is finite exactly when
every component of `principal_moments` is nonzero (the reciprocal of zero is
infinite), so the embedding tests the moments for zero directly. -/
def InertiaTensor.new (principal_moments : Vec3) : InertiaTensor :=
  let rcp := principal_moments.recip
  InertiaTensor.from_inverse_tensor (Mat3.from_diagonal
    (if principal_moments.x ≠ 0 ∧ principal_moments.y ≠ 0 ∧ principal_moments.z ≠ 0 then
      rcp
    else
      Vec3.zero))

/-- `InertiaTensor::tensor`: re-inverts the stored inverse. -/
def InertiaTensor.tensor (t : InertiaTensor) : Mat3 := t.inverse.inverse

/-- `InertiaTensor::rotate`: conjugation `R · I⁻¹ · Rᵗ` of the stored inverse
by the rotation matrix of `q`. -/
def InertiaTensor.rotate (t : InertiaTensor) (q : Quat) : InertiaTensor :=
  let r := Mat3.from_quat q
  InertiaTensor.from_inverse_tensor ((r.mul t.inverse).mul r.transpose)

/-- `InertiaTensor::is_infinite`: bitwise equality to the all-zero inverse. -/
def InertiaTensor.is_infinite (t : InertiaTensor) : Bool :=
  decide (t = InertiaTensor.INFINITY)

/-- Modelled from the spec: `shape.rs` is not under `src/`.  Spec §2 describes
`Shape` as a static geometric descriptor providing a discretized vertex set at
a given resolution and mass-distribution moments for a given scale; the
embedding keeps exactly that interface, which is all `rigid_body.rs` uses
(`shape.vertices(resolution)` and `shape.moments(scale)`). -/
structure Shape where
  vertices : UVec3 → List Vec3
  moments : Vec3 → Vec3

/-- `RigidBody` from `rigid_body.rs`, field for field. -/
structure RigidBody where
  shape : Shape
  scale : Vec3
  mass : ℚ
  vertex_resolution : UVec3
  vertices : List Vec3
  inertia_tensor : InertiaTensor
  rotation : Quat
  previous_rotation : Quat
  angular_velocity : Vec3
  previous_angular_velocity : Vec3

/-- `RigidBody::compute_vertices`: fills the vertex cache from the shape only
when it is empty. -/
def RigidBody.compute_vertices (rb : RigidBody) : RigidBody :=
  if rb.vertices.isEmpty then
    { rb with vertices := rb.shape.vertices rb.vertex_resolution }
  else
    rb

/-- `RigidBody::compute_inertia_tensor`. -/
def RigidBody.compute_inertia_tensor (rb : RigidBody) : RigidBody :=
  { rb with inertia_tensor := InertiaTensor.new (rb.shape.moments rb.scale) }

/-- `RigidBody::global_inverse_inertia`:
`self.inertia_tensor.rotate(self.rotation).inverse()`.  Note that `.inverse()`
here is `InertiaTensor::inverse`, the accessor returning the stored inverse
matrix of the rotated tensor — not `Mat3::inverse`. -/
def RigidBody.global_inverse_inertia (rb : RigidBody) : Mat3 :=
  (rb.inertia_tensor.rotate rb.rotation).inverse

/-- `RigidBody::positional_inverse_mass`. -/
def RigidBody.positional_inverse_mass (rb : RigidBody) (r n : Vec3) : ℚ :=
  let r_cross_n := r.cross n
  (1 / rb.mass) + r_cross_n.dot (rb.global_inverse_inertia.mulVec r_cross_n)

/-- Modelled from the spec: `particle.rs` is not under `src/`.  Spec §3 gives
`Particle` a scalar `mass` with inverse mass `1/mass` (the `locked` override
to zero lives in the callers, per §4.2 and `collision.rs`); position and
velocity state live on the owning `Collider` in the core.  Only `mass` and
`inverse_mass()` are exercised by the embedded code. -/
structure Particle where
  mass : ℚ

/-- Modelled from the spec: `Particle::inverse_mass` per spec §3 and §8
(`inverse_mass = 1/mass` for a particle; `locked` is handled by callers). -/
def Particle.inverse_mass (p : Particle) : ℚ := 1 / p.mass

/-- `ColliderBody` from `collider.rs`. -/
inductive ColliderBody where
  | particle (p : Particle)
  | rigid (rb : RigidBody)

/-- `ColliderBody::mass`. -/
def ColliderBody.mass : ColliderBody → ℚ
  | .particle p => p.mass
  | .rigid rb => rb.mass

/-- True exactly when the body is the `Particle` variant. -/
def ColliderBody.isParticle : ColliderBody → Bool
  | .particle _ => true
  | .rigid _ => false

/-- `ColliderId` from `collider.rs` (a `u32` newtype). -/
structure ColliderId where
  val : ℕ
deriving DecidableEq

/-- `ColliderId::new` (`i as u32`). -/
def ColliderId.new (i : ℕ) : ColliderId := ⟨i % 2 ^ 32⟩

/-- `Collider` from `collider.rs`, field for field. -/
structure Collider where
  id : ℕ
  body : ColliderBody
  locked : Bool
  position : Vec3
  previous_position : Vec3
  velocity : Vec3

/-- Modelled from the spec: `contact.rs` is not under `src/`.  Spec §3:
normal, penetration depth, and the two local anchor points. -/
structure Contact where
  normal : Vec3
  depth : ℚ
  anchor1 : Vec3
  anchor2 : Vec3

/-- `ParticleCollisionConstraint` from `constraint/collision.rs`. -/
structure ParticleCollisionConstraint where
  particle : ColliderId
  rb : ColliderId
  contact : Contact
  compliance : ℚ

/-- `Constraint::bodies` for `ParticleCollisionConstraint`. -/
def ParticleCollisionConstraint.bodies (self : ParticleCollisionConstraint) :
    List ColliderId :=
  [self.particle, self.rb]

/-- `Constraint::c` for `ParticleCollisionConstraint`: the contact depth. -/
def ParticleCollisionConstraint.c (self : ParticleCollisionConstraint)
    (_bodies : List Collider) : ℚ :=
  self.contact.depth

/-- `Constraint::c_gradients` for `ParticleCollisionConstraint`. -/
def ParticleCollisionConstraint.c_gradients (self : ParticleCollisionConstraint)
    (_bodies : List Collider) : List Vec3 :=
  [self.contact.normal.neg, self.contact.normal]

/-- `Constraint::inverse_masses` for `ParticleCollisionConstraint`: the source
first pattern-matches the slice against exactly two bodies (returning the
empty vector otherwise), then requires the first body to be a `Particle` and
the second a `RigidBody` (returning the empty vector on either mismatch), and
finally zeroes each entry for a locked collider. -/
def ParticleCollisionConstraint.inverse_masses (self : ParticleCollisionConstraint)
    (bodies : List Collider) : List ℚ :=
  match bodies with
  | [particle, rb] =>
    match particle.body, rb.body with
    | ColliderBody.particle particle_body, ColliderBody.rigid rb_body =>
      [if particle.locked then 0 else particle_body.inverse_mass,
       if rb.locked then 0
       else rb_body.positional_inverse_mass self.contact.anchor2 self.contact.normal]
    | _, _ => []
  | _ => []

/-- `Constraint::anchors` for `ParticleCollisionConstraint`. -/
def ParticleCollisionConstraint.anchors (self : ParticleCollisionConstraint) :
    List Vec3 :=
  [self.contact.anchor1, self.contact.anchor2]

/-- Modelled from the spec: the `sokudo-io` read-side transform (the crate is
not under `src/`).  `rigid_body.rs` reads `transform.rotate` and
`transform.scale`; spec §6 lists an initial transform of translate/rotate
(plus scale) per collider. -/
structure ParsedTransform where
  translate : Vec3
  rotate : Quat
  scale : Vec3

/-- Modelled from the spec: `sokudo-io`'s `ParsedRigidBody` (crate not under
`src/`), with exactly the fields `rigid_body.rs` reads: shape, mass,
vertex resolution, optional precomputed vertices, and the transform.  The
`ParsedShape → Shape` conversion lives in the missing `shape.rs`; it is
modelled as carrying the shape over unchanged. -/
structure ParsedRigidBody where
  shape : Shape
  mass : ℚ
  vertex_resolution : UVec3
  vertices : List Vec3
  transform : ParsedTransform

/-- Modelled from the spec: `sokudo-io`'s parsed particle (crate not under
`src/`); spec §3's particle carries a scalar mass into the core. -/
structure ParsedParticle where
  mass : ℚ

/-- Conversion `ParsedParticle → Particle` (in the missing `particle.rs`),
modelled as carrying the mass over. -/
def Particle.ofParsed (p : ParsedParticle) : Particle := ⟨p.mass⟩

/-- Modelled from the spec: `sokudo-io`'s `ParsedColliderBody` (crate not
under `src/`), the two variants matched in `collider.rs`. -/
inductive ParsedColliderBody where
  | particle (p : ParsedParticle)
  | rigidBody (rb : ParsedRigidBody)

/-- Modelled from the spec: `sokudo-io`'s `ParsedCollider` (crate not under
`src/`), with exactly the fields `collider.rs` reads: id, locked flag, body,
initial position and velocity. -/
structure ParsedCollider where
  id : ℕ
  body : ParsedColliderBody
  locked : Bool
  position : Vec3
  velocity : Vec3

/-- `impl From<ParsedRigidBody> for RigidBody` from `rigid_body.rs`, field for
field: the vertex resolution is replaced by `UVec3::ONE` only when it equals
`UVec3::ZERO`, the inertia tensor starts as `InertiaTensor::INFINITY`, both
rotations copy the parsed rotation, and both angular velocities start at
zero. -/
def RigidBody.ofParsed (value : ParsedRigidBody) : RigidBody :=
  { shape := value.shape
    mass := value.mass
    vertex_resolution :=
      if value.vertex_resolution = UVec3.zero then UVec3.one else value.vertex_resolution
    vertices := value.vertices
    inertia_tensor := InertiaTensor.INFINITY
    previous_rotation := value.transform.rotate
    angular_velocity := Vec3.zero
    previous_angular_velocity := Vec3.zero
    rotation := value.transform.rotate
    scale := value.transform.scale }

/-- `impl From<ParsedColliderBody> for ColliderBody` from `collider.rs`. -/
def ColliderBody.ofParsed : ParsedColliderBody → ColliderBody
  | .particle p => .particle (Particle.ofParsed p)
  | .rigidBody rb => .rigid (RigidBody.ofParsed rb)

/-- `impl From<ParsedCollider> for Collider` from `collider.rs`, field for
field: `previous_position` is initialized to the parsed position. -/
def Collider.ofParsed (value : ParsedCollider) : Collider :=
  { id := value.id
    locked := value.locked
    body := ColliderBody.ofParsed value.body
    position := value.position
    previous_position := value.position
    velocity := value.velocity }

/-- Modelled from the spec: `sokudo-io`'s write-side transform (crate not
under `src/`).  Spec §6: an output transform is a translation plus a
rotation. -/
structure WriteTransform where
  translate : Vec3
  rotate : Quat
deriving DecidableEq

/-- Modelled from the spec: `WriteTransform::from_translate`, used by
`collider.rs` for particles ("translation-only" per spec §6): the translation
paired with the identity rotation. -/
def WriteTransform.from_translate (t : Vec3) : WriteTransform := ⟨t, Quat.identity⟩

/-- `WriteCollider` from `sokudo-io` as used by `collider.rs`: the collider id
plus its output transform. -/
structure WriteCollider where
  id : ℕ
  transform : WriteTransform
deriving DecidableEq

/-- `impl From<&Collider> for WriteCollider` from `collider.rs`.  The particle
arm is `WriteTransform::from_translate(value.position)`, verbatim from the
source.  The rigid arm of the source reads `(&rb.transform).into()`, but the
`RigidBody` in `src/` declares no `transform` field and the `transform` module
is not under `src/`; that arm is modelled from the spec (§6 output = the
collider's translation plus its rotation; §8 round-trip reproduces the
original position/rotation): translation from the collider's position and
rotation from the rigid body's rotation. -/
def WriteCollider.ofCollider (value : Collider) : WriteCollider :=
  { id := value.id
    transform :=
      match value.body with
      | .particle _ => WriteTransform.from_translate value.position
      | .rigid rb => ⟨value.position, rb.rotation⟩ }

/-- `WriteWorldState` from `sokudo-io` as used by `world.rs`: the per-step
snapshot, one `WriteCollider` per collider in collider order. -/
structure WriteWorldState where
  colliders : List WriteCollider
deriving DecidableEq

/-- `World` from `world.rs`. -/
structure World where
  steps : ℕ
  colliders : List Collider

/-- `World::step` from `world.rs`: for every collider (locked or not) the
source runs `collider.transform.translate.y -= 0.1;`.  The `Collider` struct
in `src/` declares its translation under the name `position` (there is no
`transform` field on it), so the embedding identifies
`transform.translate` with `position`; the `f32` literal `0.1` is `1/10`. -/
def World.step (w : World) : World :=
  { w with
    colliders := w.colliders.map fun collider =>
      { collider with
        position :=
          ⟨collider.position.x, collider.position.y - 1 / 10, collider.position.z⟩ } }

/-- `World::state` from `world.rs`: the snapshot of all colliders, in order. -/
def World.state (w : World) : WriteWorldState :=
  ⟨w.colliders.map WriteCollider.ofCollider⟩

/-- `impl From<ParsedWorld> for World` from `world.rs` (the parsed world —
from the `sokudo-io` crate, not under `src/` — carries the step count and the
parsed colliders). -/
def World.ofParsed (steps : ℕ) (colliders : List ParsedCollider) : World :=
  ⟨steps, colliders.map Collider.ofParsed⟩

/-- One run of the stepping loop, as a relation: `TraceRel w n t` holds when
an execution that starts from `w`, calls `World::step` `n` times and records
`World::state` after each step can observe the snapshot sequence `t`. -/
inductive TraceRel : World → ℕ → List WriteWorldState → Prop where
  | nil (w : World) : TraceRel w 0 []
  | cons (w : World) (n : ℕ) (t : List WriteWorldState) :
      TraceRel w.step n t → TraceRel w (n + 1) (w.step.state :: t)

/-- The stepping loop as a function: the snapshot sequence of `n` steps. -/
def World.runTrace (w : World) : ℕ → List WriteWorldState
  | 0 => []
  | Nat.succ m => w.step.state :: w.step.runTrace m

/-- A concrete shape used by the closed instances below. -/
def unitShape : Shape := ⟨fun _ => [Vec3.zero], fun _ => ⟨1, 1, 1⟩⟩

/-- Adjugate identity for the source's cofactor-based `Mat3::inverse`: when
the determinant is nonzero, a matrix times its inverse is the identity. -/
theorem Mat3.mul_inverse (m : Mat3) (h : m.det ≠ 0) : m.mul m.inverse = Mat3.identity := by
  obtain ⟨⟨a, b, c⟩, ⟨d, e, f⟩, ⟨g, k, l⟩⟩ := m
  simp only [Mat3.det, Mat3.mul, Mat3.inverse, Mat3.mulVec, Mat3.transpose, Mat3.identity,
    Vec3.cross, Vec3.dot, Vec3.smul, Vec3.add] at h ⊢
  ext <;> field_simp <;> ring

/-- A rigid body with inverse inertia `diag(2,2,2)` and identity rotation. -/
def c1Body : RigidBody :=
  { shape := unitShape
    scale := ⟨1, 1, 1⟩
    mass := 1
    vertex_resolution := UVec3.one
    vertices := []
    inertia_tensor := InertiaTensor.from_inverse_tensor (Mat3.from_diagonal ⟨2, 2, 2⟩)
    rotation := Quat.identity
    previous_rotation := Quat.identity
    angular_velocity := Vec3.zero
    previous_angular_velocity := Vec3.zero }

/-- C1 (counterexample): `global_inverse_inertia` does not return the
re-inverted (forward) world-axes tensor, and multiplying its result by the
world-axes inverse inertia does not give the identity: for the body with
inverse inertia `diag(2,2,2)` and identity rotation it returns `diag(2,2,2)`
itself, not `diag(1/2,1/2,1/2)`, and the product is `diag(4,4,4)`. -/
theorem c1_counterexample :
    c1Body.global_inverse_inertia
        ≠ Mat3.inverse ((c1Body.inertia_tensor.rotate c1Body.rotation).inverse) ∧
    c1Body.global_inverse_inertia.mul ((c1Body.inertia_tensor.rotate c1Body.rotation).inverse)
        ≠ Mat3.identity := by
  norm_num [c1Body, RigidBody.global_inverse_inertia, InertiaTensor.rotate,
    InertiaTensor.from_inverse_tensor, Mat3.from_quat, Quat.identity, Mat3.mul, Mat3.mulVec,
    Mat3.transpose, Mat3.inverse, Mat3.from_diagonal, Mat3.identity, Vec3.smul, Vec3.add,
    Vec3.cross, Vec3.dot, Mat3.mk.injEq, Vec3.mk.injEq]

/-- C1 (amended): `global_inverse_inertia` returns the world-axes INVERSE
inertia — the stored inverse tensor conjugated by the rotation matrix,
`R · I⁻¹ · Rᵗ`, with no re-inversion (the source's trailing `.inverse()` is
the `InertiaTensor` accessor for the stored inverse matrix, not
`Mat3::inverse`); consequently multiplying the returned matrix by the forward
world-axes tensor yields the identity whenever the determinant is nonzero. -/
theorem c1_global_inverse_inertia_amended (rb : RigidBody) :
    rb.global_inverse_inertia
        = ((Mat3.from_quat rb.rotation).mul rb.inertia_tensor.inverse).mul
            (Mat3.from_quat rb.rotation).transpose ∧
    (rb.global_inverse_inertia.det ≠ 0 →
      rb.global_inverse_inertia.mul ((rb.inertia_tensor.rotate rb.rotation).tensor)
          = Mat3.identity) := by
  exact ⟨rfl, fun h => Mat3.mul_inverse _ h⟩

/-- C1 (witness): the amended theorem applied to `c1Body`, whose world-axes
inverse inertia `diag(2,2,2)` has nonzero determinant. -/
theorem c1_global_inverse_inertia_witness :
    c1Body.global_inverse_inertia.mul ((c1Body.inertia_tensor.rotate c1Body.rotation).tensor)
        = Mat3.identity :=
  (c1_global_inverse_inertia_amended c1Body).2 (by
    norm_num [c1Body, RigidBody.global_inverse_inertia, InertiaTensor.rotate,
      InertiaTensor.from_inverse_tensor, Mat3.from_quat, Quat.identity, Mat3.mul, Mat3.mulVec,
      Mat3.transpose, Mat3.from_diagonal, Mat3.det, Vec3.smul, Vec3.add, Vec3.cross, Vec3.dot])

/-- A locked particle collider at the origin. -/
def c2Collider : Collider :=
  { id := 0
    body := ColliderBody.particle ⟨1⟩
    locked := true
    position := Vec3.zero
    previous_position := Vec3.zero
    velocity := Vec3.zero }

/-- A world holding only the locked collider `c2Collider`. -/
def c2World : World := ⟨1, [c2Collider]⟩

/-- C2 (code evaluated at the failing input): `World::step` translates EVERY
collider down by `0.1`, locked or not — one step moves the locked collider at
the origin to `y = -1/10`, contradicting the `locked` field's own
documentation ("this turns off gravity") and the spec's step contract
(external forces only on unlocked bodies).  The velocity is indeed left
unchanged; the position is not. -/
theorem c2_step_moves_locked_collider :
    c2Collider.locked = true ∧
    c2World.colliders.map Collider.position = [⟨0, 0, 0⟩] ∧
    c2World.step.colliders.map Collider.position = [⟨0, -(1 / 10), 0⟩] ∧
    c2World.step.colliders.map Collider.position ≠ c2World.colliders.map Collider.position ∧
    c2World.step.colliders.map Collider.velocity = c2World.colliders.map Collider.velocity := by
  norm_num [c2World, c2Collider, World.step, Vec3.zero, Vec3.mk.injEq]

/-- A parsed rigid body whose vertex resolution has two zero components. -/
def c3Parsed : ParsedRigidBody :=
  { shape := unitShape
    mass := 1
    vertex_resolution := ⟨0, 0, 5⟩
    vertices := []
    transform := ⟨Vec3.zero, Quat.identity, ⟨1, 1, 1⟩⟩ }

/-- The same parsed rigid body with the all-zero vertex resolution. -/
def c3ZeroParsed : ParsedRigidBody := { c3Parsed with vertex_resolution := UVec3.zero }

/-- C3 (counterexample): construction only normalizes the ALL-zero resolution;
the parsed resolution `(0,0,5)` survives construction verbatim, so the
constructed body has a zero component — refuting "every component of
`vertex_resolution` is nonzero". -/
theorem c3_counterexample :
    (RigidBody.ofParsed c3Parsed).vertex_resolution = ⟨0, 0, 5⟩ ∧
    (RigidBody.ofParsed c3Parsed).vertex_resolution.x = 0 := by
  decide

/-- C3 (amended): construction replaces the parsed vertex resolution by
`(1,1,1)` exactly when the whole parsed resolution equals `(0,0,0)`, and keeps
it verbatim otherwise (so individual zero components survive); in particular
a parsed resolution of `(0,0,0)` becomes `(1,1,1)`. -/
theorem c3_vertex_resolution_amended (prb : ParsedRigidBody) :
    (RigidBody.ofParsed prb).vertex_resolution
        = (if prb.vertex_resolution = UVec3.zero then UVec3.one else prb.vertex_resolution) ∧
    (prb.vertex_resolution = UVec3.zero →
      (RigidBody.ofParsed prb).vertex_resolution = UVec3.one) := by
  refine ⟨rfl, fun h => ?_⟩
  simp [RigidBody.ofParsed, h]

/-- C3 (witness): the amended theorem applied to the parsed body with the
all-zero resolution. -/
theorem c3_vertex_resolution_witness :
    (RigidBody.ofParsed c3ZeroParsed).vertex_resolution = UVec3.one :=
  (c3_vertex_resolution_amended c3ZeroParsed).2 rfl

/-- A rigid body of mass `2` with infinite (all-zero inverse) inertia. -/
def c4Body : RigidBody := { c1Body with mass := 2, inertia_tensor := InertiaTensor.INFINITY }

/-- C4: `positional_inverse_mass(r, n)` equals
`1/mass + (r × n) · (global_inverse_inertia() · (r × n))`, and whenever
`r × n` is the zero vector it returns exactly `1/mass`. -/
theorem c4_positional_inverse_mass (rb : RigidBody) (r n : Vec3) (_hm : rb.mass ≠ 0) :
    rb.positional_inverse_mass r n
        = 1 / rb.mass + (r.cross n).dot (rb.global_inverse_inertia.mulVec (r.cross n)) ∧
    (r.cross n = Vec3.zero → rb.positional_inverse_mass r n = 1 / rb.mass) := by
  refine ⟨rfl, fun h => ?_⟩
  show 1 / rb.mass + (r.cross n).dot (rb.global_inverse_inertia.mulVec (r.cross n)) = 1 / rb.mass
  rw [h]
  simp [Vec3.dot, Mat3.mulVec, Vec3.smul, Vec3.add, Vec3.zero]

/-- C4 (witness): for the mass-2 body and `r = n = (0,1,0)` (parallel, so the
cross product is zero) the generalized inverse mass is exactly `1/mass`. -/
theorem c4_positional_inverse_mass_witness :
    c4Body.positional_inverse_mass ⟨0, 1, 0⟩ ⟨0, 1, 0⟩ = 1 / c4Body.mass :=
  (c4_positional_inverse_mass c4Body ⟨0, 1, 0⟩ ⟨0, 1, 0⟩ (by norm_num [c4Body])).2
    (by norm_num [Vec3.cross, Vec3.zero, Vec3.mk.injEq])

/-- A contact along the world y axis with both anchors at the origin. -/
def c5Contact : Contact := ⟨⟨0, 1, 0⟩, 1 / 2, Vec3.zero, Vec3.zero⟩

/-- A particle-vs-rigid collision constraint over collider ids 0 and 1. -/
def c5Constraint : ParticleCollisionConstraint :=
  ⟨ColliderId.new 0, ColliderId.new 1, c5Contact, 0⟩

/-- An unlocked rigid-bodied collider (mass 2, infinite inertia). -/
def c5RigidCollider : Collider :=
  { id := 1
    body := ColliderBody.rigid c4Body
    locked := false
    position := Vec3.zero
    previous_position := Vec3.zero
    velocity := Vec3.zero }

/-- A locked particle-bodied collider of mass 3. -/
def c5LockedParticle : Collider :=
  { id := 0
    body := ColliderBody.particle ⟨3⟩
    locked := true
    position := Vec3.zero
    previous_position := Vec3.zero
    velocity := Vec3.zero }

/-- A rigid-bodied collider placed in the slot the constraint expects a
particle in. -/
def c5MismatchedFirst : Collider := { c5RigidCollider with id := 0 }

/-- C5 (counterexample): when the first body is not a `Particle`,
`inverse_masses` returns the EMPTY vector — not a vector of zero per-body
inverse masses: there is no entry at all for either body. -/
theorem c5_counterexample :
    c5MismatchedFirst.body.isParticle = false ∧
    c5Constraint.inverse_masses [c5MismatchedFirst, c5RigidCollider] = [] ∧
    (c5Constraint.inverse_masses [c5MismatchedFirst, c5RigidCollider]).get? 0 ≠ some 0 := by
  decide

/-- C5 (amended): for a two-body slice whose first body is a particle and
whose second is a rigid body, `inverse_masses` returns the two generalized
inverse masses with the entry of any locked collider equal to 0 regardless of
its mass or shape; on any mismatch — wrong slice length, first body not a
`Particle`, or second body not a `RigidBody` — it silently returns the empty
vector (a no-effect, not a crash). -/
theorem c5_inverse_masses_amended (self : ParticleCollisionConstraint) (p q : Collider) :
    self.inverse_masses [p, q]
        = (match p.body, q.body with
          | ColliderBody.particle pb, ColliderBody.rigid rbb =>
            [if p.locked then 0 else pb.inverse_mass,
             if q.locked then 0
             else rbb.positional_inverse_mass self.contact.anchor2 self.contact.normal]
          | _, _ => []) ∧
    (∀ bodies : List Collider, bodies.length ≠ 2 → self.inverse_masses bodies = []) := by
  constructor
  · obtain ⟨pid, pb, plocked, ppos, pprev, pvel⟩ := p
    obtain ⟨qid, qb, qlocked, qpos, qprev, qvel⟩ := q
    cases pb <;> cases qb <;> rfl
  · intro bodies hlen
    rcases bodies with _ | ⟨a, _ | ⟨b, _ | ⟨c, rest⟩⟩⟩
    · rfl
    · rfl
    · exact absurd rfl hlen
    · rfl

/-- C5 (witness): the amended theorem evaluated on a locked particle (entry 0
despite mass 3) paired with an unlocked rigid body (entry `1/2`), and on an
empty slice (empty result). -/
theorem c5_inverse_masses_witness :
    c5Constraint.inverse_masses [c5LockedParticle, c5RigidCollider] = [0, 1 / 2] ∧
    c5Constraint.inverse_masses [] = [] :=
  ⟨(c5_inverse_masses_amended c5Constraint c5LockedParticle c5RigidCollider).1.trans (by
      norm_num [c5LockedParticle, c5RigidCollider, c5Constraint, c5Contact, c4Body, c1Body,
        Particle.inverse_mass, RigidBody.positional_inverse_mass,
        RigidBody.global_inverse_inertia, InertiaTensor.rotate, InertiaTensor.from_inverse_tensor,
        InertiaTensor.INFINITY, Mat3.from_quat, Quat.identity, Mat3.mul, Mat3.mulVec,
        Mat3.transpose, Mat3.zero, Vec3.smul, Vec3.add, Vec3.cross, Vec3.dot, Vec3.zero]),
   (c5_inverse_masses_amended c5Constraint c5LockedParticle c5RigidCollider).2 [] (by simp)⟩

/-- C6 (counterexample): for principal moments `(1, 0, 1)` the x-axis
reciprocal is the finite value `1`, yet `InertiaTensor::new` stores the
all-zero inverse — the finite axes do NOT keep their reciprocal values when
any other axis has a non-finite reciprocal. -/
theorem c6_counterexample :
    (InertiaTensor.new ⟨1, 0, 1⟩).inverse = Mat3.zero ∧
    (Vec3.recip ⟨1, 0, 1⟩).x = 1 := by
  norm_num [InertiaTensor.new, InertiaTensor.from_inverse_tensor, Vec3.recip,
    Mat3.from_diagonal, Mat3.zero, Vec3.zero, Mat3.mk.injEq, Vec3.mk.injEq]

/-- C6 (amended): `InertiaTensor::new` stores the diagonal of componentwise
reciprocals when EVERY reciprocal is finite (every moment nonzero); if any
reciprocal is non-finite (any zero moment) the ENTIRE diagonal is zeroed —
the tensor becomes `InertiaTensor::INFINITY` — rather than zeroing only the
offending axis. -/
theorem c6_new_amended (m : Vec3) :
    (InertiaTensor.new m).inverse
        = (if m.x ≠ 0 ∧ m.y ≠ 0 ∧ m.z ≠ 0 then Mat3.from_diagonal m.recip else Mat3.zero) ∧
    ((m.x = 0 ∨ m.y = 0 ∨ m.z = 0) → InertiaTensor.new m = InertiaTensor.INFINITY) := by
  constructor
  · by_cases h : m.x ≠ 0 ∧ m.y ≠ 0 ∧ m.z ≠ 0
    · simp [InertiaTensor.new, InertiaTensor.from_inverse_tensor, h]
    · simp [InertiaTensor.new, InertiaTensor.from_inverse_tensor, h, Mat3.from_diagonal,
        Mat3.zero, Vec3.zero]
  · intro h
    have h' : ¬(m.x ≠ 0 ∧ m.y ≠ 0 ∧ m.z ≠ 0) := by tauto
    simp [InertiaTensor.new, InertiaTensor.from_inverse_tensor, InertiaTensor.INFINITY, h',
      Mat3.from_diagonal, Mat3.zero, Vec3.zero]

/-- C6 (witness): a single zero moment among finite ones collapses the whole
tensor to `INFINITY`. -/
theorem c6_new_witness : InertiaTensor.new ⟨1, 0, 1⟩ = InertiaTensor.INFINITY :=
  (c6_new_amended ⟨1, 0, 1⟩).2 (Or.inr (Or.inl rfl))

/-- A parsed rigid body with a nontrivial rotation. -/
def c7Prb : ParsedRigidBody :=
  { shape := unitShape
    mass := 1
    vertex_resolution := UVec3.one
    vertices := []
    transform := ⟨⟨1, 2, 3⟩, ⟨1 / 2, 1 / 2, 1 / 2, 1 / 2⟩, ⟨1, 1, 1⟩⟩ }

/-- A parsed collider wrapping `c7Prb` at position `(1,2,3)`. -/
def c7Parsed : ParsedCollider :=
  { id := 7
    body := ParsedColliderBody.rigidBody c7Prb
    locked := false
    position := ⟨1, 2, 3⟩
    velocity := Vec3.zero }

/-- C7: before any step, converting a `ParsedCollider` to a `Collider` and
then to the output `WriteCollider` preserves the id exactly, reproduces the
original position as the output translation (particles and rigid bodies
alike), and for a rigid body reproduces the original rotation as the output
rotation. -/
theorem c7_round_trip (pc : ParsedCollider) :
    (WriteCollider.ofCollider (Collider.ofParsed pc)).id = pc.id ∧
    (WriteCollider.ofCollider (Collider.ofParsed pc)).transform.translate = pc.position ∧
    (∀ prb, pc.body = ParsedColliderBody.rigidBody prb →
      (WriteCollider.ofCollider (Collider.ofParsed pc)).transform.rotate
          = prb.transform.rotate) := by
  obtain ⟨i, b, lk, pos, vel⟩ := pc
  cases b with
  | particle p => exact ⟨rfl, rfl, fun prb h => nomatch h⟩
  | rigidBody rb =>
    refine ⟨rfl, rfl, fun prb h => ?_⟩
    injection h with h2
    subst h2
    rfl

/-- C7 (witness): the round trip evaluated on the concrete parsed rigid
collider `c7Parsed`. -/
theorem c7_round_trip_witness :
    (WriteCollider.ofCollider (Collider.ofParsed c7Parsed)).id = 7 ∧
    (WriteCollider.ofCollider (Collider.ofParsed c7Parsed)).transform.translate = ⟨1, 2, 3⟩ ∧
    (WriteCollider.ofCollider (Collider.ofParsed c7Parsed)).transform.rotate
        = ⟨1 / 2, 1 / 2, 1 / 2, 1 / 2⟩ :=
  ⟨(c7_round_trip c7Parsed).1, (c7_round_trip c7Parsed).2.1,
   (c7_round_trip c7Parsed).2.2 c7Prb rfl⟩

/-- C8: determinism of the stepping loop as a two-run property: any two
executions of `N` steps from the same initial world that record the `state()`
snapshot after each step observe identical snapshot sequences — `World::step`
and `World::state` are pure functions of the world, with no randomness and no
wall-clock dependence. -/
theorem c8_determinism (w : World) (n : ℕ) (t₁ t₂ : List WriteWorldState)
    (h₁ : TraceRel w n t₁) (h₂ : TraceRel w n t₂) : t₁ = t₂ := by
  induction h₁ generalizing t₂ with
  | nil w => cases h₂; rfl
  | cons w n t ht ih =>
    cases h₂ with
    | cons _ _ t' ht' => rw [ih t' ht']

/-- The functional stepping loop is one execution admitted by `TraceRel`. -/
theorem traceRel_runTrace : ∀ (n : ℕ) (w : World), TraceRel w n (w.runTrace n)
  | 0, w => TraceRel.nil w
  | Nat.succ m, w => TraceRel.cons w m _ (traceRel_runTrace m w.step)

/-- A one-collider world used to instantiate the determinism theorem. -/
def c8World : World :=
  ⟨2, [{ id := 0
         body := ColliderBody.particle ⟨1⟩
         locked := false
         position := ⟨0, 5, 0⟩
         previous_position := ⟨0, 5, 0⟩
         velocity := Vec3.zero }]⟩

/-- C8 (witness): two concrete two-step executions from `c8World` — the
functional `runTrace` and an explicitly constructed derivation — observe the
same snapshot sequence. -/
theorem c8_determinism_witness :
    c8World.runTrace 2 = [c8World.step.state, c8World.step.step.state] :=
  c8_determinism c8World 2 _ _ (traceRel_runTrace 2 c8World)
    (TraceRel.cons c8World 1 [c8World.step.step.state]
      (TraceRel.cons c8World.step 0 [] (TraceRel.nil c8World.step.step)))

/-- C9: a `Collider` constructed from a `ParsedCollider` starts with
`previous_position` equal to its `position` (zero positional delta for the
XPBD velocity reconstruction), the position taken from the parsed input, and
the velocity taken from the parsed input independently of that delta. -/
theorem c9_parsed_collider_defaults (pc : ParsedCollider) :
    (Collider.ofParsed pc).previous_position = (Collider.ofParsed pc).position ∧
    (Collider.ofParsed pc).position = pc.position ∧
    (Collider.ofParsed pc).velocity = pc.velocity :=
  ⟨rfl, rfl, rfl⟩

/-- C10: a `RigidBody` constructed from a `ParsedRigidBody` has
`inertia_tensor = InertiaTensor::INFINITY` (the all-zero inverse, i.e. no
angular response) regardless of the parsed mass and shape — the tensor is
only derived from the shape when `compute_inertia_tensor` is explicitly
called — and its `previous_rotation` equals its `rotation` while both angular
velocities start at zero. -/
theorem c10_parsed_rigid_body_defaults (prb : ParsedRigidBody) :
    (RigidBody.ofParsed prb).inertia_tensor = InertiaTensor.INFINITY ∧
    InertiaTensor.INFINITY.inverse = Mat3.zero ∧
    (RigidBody.ofParsed prb).previous_rotation = (RigidBody.ofParsed prb).rotation ∧
    (RigidBody.ofParsed prb).rotation = prb.transform.rotate ∧
    (RigidBody.ofParsed prb).angular_velocity = Vec3.zero ∧
    (RigidBody.ofParsed prb).previous_angular_velocity = Vec3.zero ∧
    ((RigidBody.ofParsed prb).compute_inertia_tensor).inertia_tensor
        = InertiaTensor.new (prb.shape.moments prb.transform.scale) :=
  ⟨rfl, rfl, rfl, rfl, rfl, rfl, rfl⟩

end Sokudo
